import Mathlib

/-!
ShiftSpeak — verification of the streaming transcription/translation core

Shallow embedding of the parts of the repository relevant to the frozen
claims: the in-memory session store (`server/storage.ts`), the WebSocket
audio-chunk handler and SRT export helpers (`server/routes.ts`), the
transcription gateway's language mapping
(`server/services/transcriptionService.ts`), the translation gateway's
response handling (`OpenAITranslationService.translateText`), and the
client reconnect policy (`client/src/hooks/useWebSocket.ts`).

Conventions of the embedding:
* `crypto.randomUUID()` is modelled as a fresh-identifier supply: the
  store carries a counter `nextId` and identifiers are natural numbers;
  freshness of generated ids is the counter invariant.
* JavaScript `a || b` on strings is `none`/`""`-falsy: modelled by
  `jsOrNull` / `langOrDefault` / `jsTruthy` below.
* JavaScript numbers appearing only as data (durations, confidences)
  are modelled as `ℚ`; `Math.round` is Mathlib's `round` (both round
  half toward positive infinity).
* `new Date()` / `Date.now()` wall-clock reads are passed in as an
  explicit `now : Int` (milliseconds) parameter.
* Awaited promises of the remote gateways are modelled as
  `Except String` outcomes supplied per call ("oracles").
-/

namespace ShiftSpeak

/-- JS truthiness of an optional string: `undefined`, `null` and `""` are
falsy, every other string is truthy. -/
def jsTruthy : Option String → Bool
  | some s => !(s == "")
  | none => false

/-- JS `s || null` for an optional string field: falsy becomes `null`. -/
def jsOrNull : Option String → Option String
  | some s => if s == "" then none else some s
  | none => none

/-- JS `n || null` for an optional integer field (`0` is falsy). -/
def jsOrNullInt : Option Int → Option Int
  | some n => if n == 0 then none else some n
  | none => none

/-- JS `t || d` for an optional integer with default (`0` is falsy). -/
def jsOrInt (o : Option Int) (d : Int) : Int :=
  match o with
  | some t => if t == 0 then d else t
  | none => d

/-- JS `q || d` for an optional rational with default (`0` is falsy). -/
def jsOrQ (o : Option ℚ) (d : ℚ) : ℚ :=
  match o with
  | some q => if q == 0 then d else q
  | none => d

/-! ## Data model (`shared/schema.ts`, `server/storage.ts`) -/

/-- A stored transcription session (`TranscriptionSession`).  Identifiers
are modelled as naturals drawn from the store's fresh-id counter. -/
structure TranscriptionSession where
  id : Nat
  createdAt : Int
  updatedAt : Int
  title : Option String
  status : Option String
  userId : Option String
  sourceLanguage : Option String
  targetLanguage : Option String
  deriving DecidableEq, Repr

/-- A stored caption entry (`TranscriptionEntry`). -/
structure TranscriptionEntry where
  id : Nat
  createdAt : Int
  sessionId : Nat
  originalText : String
  translatedText : Option String
  speakerLabel : Option String
  timestamp : Int
  confidence : Option Int
  deriving DecidableEq, Repr

/-- Insert shape for sessions (`InsertTranscriptionSession`): the schema
omits `id`, `createdAt`, `updatedAt`. -/
structure InsertTranscriptionSession where
  title : Option String := none
  status : Option String := none
  userId : Option String := none
  sourceLanguage : Option String := none
  targetLanguage : Option String := none
  deriving DecidableEq, Repr

/-- Insert shape for entries (`InsertTranscriptionEntry`): the schema
omits `id` and `createdAt`. -/
structure InsertTranscriptionEntry where
  sessionId : Nat
  originalText : String
  translatedText : Option String := none
  speakerLabel : Option String := none
  timestamp : Int
  confidence : Option Int := none
  deriving DecidableEq, Repr

/-- The declared column default for `transcription_sessions.status` in
`shared/schema.ts` (`text("status").default("active")`). -/
def transcriptionSessionsStatusDefault : String := "active"

/-- State of `MemStorage`: the two JS `Map`s relevant to the claims, modelled as
lists in insertion order (JS `Map` iterates in insertion order and
`set` with a fresh key appends), plus the fresh-id counter standing in
for `randomUUID()`. -/
structure MemStorage where
  sessions : List TranscriptionSession
  entries : List TranscriptionEntry
  nextId : Nat
  deriving DecidableEq, Repr

/-- The store as constructed: both maps empty. -/
def emptyStorage : MemStorage := { sessions := [], entries := [], nextId := 0 }

/-- Source `MemStorage.createSession`: generate an id, stamp `createdAt` /
`updatedAt` with `now`, apply the `|| null` defaulting of the source to
each optional field, and insert the session. -/
def createSession (i : InsertTranscriptionSession) (now : Int) (s : MemStorage) :
    TranscriptionSession × MemStorage :=
  let sess : TranscriptionSession :=
    { id := s.nextId
      createdAt := now
      updatedAt := now
      title := jsOrNull i.title
      status := jsOrNull i.status
      userId := jsOrNull i.userId
      sourceLanguage := jsOrNull i.sourceLanguage
      targetLanguage := jsOrNull i.targetLanguage }
  (sess, { s with sessions := s.sessions ++ [sess], nextId := s.nextId + 1 })

/-- Source `MemStorage.addTranscriptionEntry`: generate an id, stamp
`createdAt`, apply `|| null` defaulting to the optional fields, and
insert the entry.  The source performs no session-existence check. -/
def addTranscriptionEntry (i : InsertTranscriptionEntry) (now : Int) (s : MemStorage) :
    TranscriptionEntry × MemStorage :=
  let e : TranscriptionEntry :=
    { id := s.nextId
      createdAt := now
      sessionId := i.sessionId
      originalText := i.originalText
      translatedText := jsOrNull i.translatedText
      speakerLabel := jsOrNull i.speakerLabel
      timestamp := i.timestamp
      confidence := jsOrNullInt i.confidence }
  (e, { s with entries := s.entries ++ [e], nextId := s.nextId + 1 })

/-- Ordering used by `getSessionEntries`'s comparator
`(a, b) => a.timestamp - b.timestamp`. -/
def entryLE (a b : TranscriptionEntry) : Prop := a.timestamp ≤ b.timestamp

instance : DecidableRel entryLE := fun a b => Int.decLe a.timestamp b.timestamp

instance : IsTotal TranscriptionEntry entryLE := ⟨fun a b => Int.le_total a.timestamp b.timestamp⟩

instance : IsTrans TranscriptionEntry entryLE := ⟨fun _ _ _ hab hbc => le_trans hab hbc⟩

/-- Source `MemStorage.getSessionEntries`: filter the entry map by `sessionId`
and sort ascending by `timestamp`. -/
def getSessionEntries (s : MemStorage) (sessionId : Nat) : List TranscriptionEntry :=
  List.insertionSort entryLE (s.entries.filter (fun e => e.sessionId == sessionId))

/-! ## Transcription gateway language mapping
(`server/services/transcriptionService.ts`) -/

/-- The literal `languageMap` table of
`LemonfoxTranscriptionService.mapLanguageCode`. -/
def languageMap : List (String × String) :=
  [("english", "en"), ("spanish", "es"), ("french", "fr"), ("german", "de"),
   ("chinese", "zh"), ("japanese", "ja"), ("portuguese", "pt"), ("russian", "ru"),
   ("italian", "it"), ("korean", "ko"), ("dutch", "nl"), ("arabic", "ar")]

/-- Source `mapLanguageCode`: `"auto"` maps to `undefined` (modelled
`none`), a name in the table maps to its code, anything else passes
through (`languageMap[language] || language`). -/
def mapLanguageCode (language : String) : Option String :=
  if language == "auto" then none
  else some ((languageMap.lookup language).getD language)

/-- The `language` form field attached by `transcribeAudio`:
`if (options.language) { const m = mapLanguageCode(...); if (m) append }`,
so the field is omitted (`none`) when `options.language` is falsy or the
mapping returned `undefined`. -/
def requestLanguage (optLanguage : Option String) : Option String :=
  match optLanguage with
  | none => none
  | some l => if l == "" then none else mapLanguageCode l

/-! ## Translation gateway (`OpenAITranslationService.translateText`) -/

/-- Options of `translateText`. -/
structure TranslationOptions where
  sourceLanguage : Option String := none
  targetLanguage : String
  context : Option String := none
  deriving DecidableEq, Repr

/-- Result shape of `translateText`. -/
structure TranslationResult where
  translatedText : String
  sourceLanguage : Option String
  confidence : Option ℚ
  deriving DecidableEq, Repr

/-- What `JSON.parse` makes of the chat completion's message content:
either the parse throws (`invalidJson`) or it yields an object whose
three relevant fields may each be present or absent. -/
inductive ChatContent where
  | invalidJson (raw : String)
  | object (translation : Option String) (detectedLanguage : Option String)
      (confidence : Option ℚ)
  deriving DecidableEq, Repr

/-- Outcome of the awaited `chat.completions.create` call: the client
throws (network / non-2xx), or it returns a message whose `content` is
`null` or a string (already classified by `JSON.parse`). -/
inductive ChatOutcome where
  | failure (message : String)
  | success (content : Option ChatContent)
  deriving DecidableEq, Repr

/-- JS `s || d` for an optional string with string default. -/
def jsOrStr (o : Option String) (d : String) : String :=
  match o with
  | some s => if s == "" then d else s
  | none => d

/-- JS `s || d` for an optional string with optional default. -/
def jsOrOptStr (o d : Option String) : Option String :=
  match o with
  | some s => if s == "" then d else some s
  | none => d

/-- The literal `0.9` fallback confidence of `translateText`. -/
def defaultTranslationConfidence : ℚ := 9 / 10

/-- Success-path result assembly of `translateText`:
`translation || text`, `detected_language || options.sourceLanguage`,
`confidence || 0.9`. -/
def mkTranslationResult (text : String) (options : TranslationOptions)
    (translation detectedLanguage : Option String) (confidence : Option ℚ) :
    TranslationResult :=
  { translatedText := jsOrStr translation text
    sourceLanguage := jsOrOptStr detectedLanguage options.sourceLanguage
    confidence := some (jsOrQ confidence defaultTranslationConfidence) }

/-- Source `translateText`: on a thrown client error or a `JSON.parse`
failure the surrounding catch rethrows a `Failed to translate text`
error (the `TranslationFailure`); on any successfully parsed object it
returns a success result assembled with `||` fallbacks.  A `null`
content is replaced by an empty JSON object literal, which parses to
the object with all three fields absent. -/
def translateText (text : String) (options : TranslationOptions)
    (outcome : ChatOutcome) : Except String TranslationResult :=
  match outcome with
  | .failure m => .error ("Failed to translate text: " ++ m)
  | .success none => .ok (mkTranslationResult text options none none none)
  | .success (some (.invalidJson raw)) =>
      .error ("Failed to translate text: unexpected token in JSON: " ++ raw)
  | .success (some (.object tr dl cf)) => .ok (mkTranslationResult text options tr dl cf)

/-! ## Streaming coordinator: the WebSocket `audio_chunk` handler
(`server/routes.ts`, `wss.on('connection')`) -/

/-- Result of `transcribeAudioStream` as used by the handler. -/
structure TranscriptionResultData where
  text : String
  duration : Option ℚ
  deriving DecidableEq, Repr

/-- An inbound `audio_chunk` message (the fields the handler reads). -/
structure WsAudioChunk where
  audio : String
  language : Option String := none
  targetLanguage : Option String := none
  speakerLabels : Bool := false
  sessionId : Option Nat := none
  speakerLabel : Option String := none
  timestamp : Option Int := none
  deriving DecidableEq, Repr

instance {ε α : Type} [DecidableEq ε] [DecidableEq α] : DecidableEq (Except ε α) := fun x y =>
  match x, y with
  | .ok a, .ok b => if h : a = b then isTrue (by rw [h]) else isFalse (by simp [h])
  | .error a, .error b => if h : a = b then isTrue (by rw [h]) else isFalse (by simp [h])
  | .ok _, .error _ => isFalse (by simp)
  | .error _, .ok _ => isFalse (by simp)

/-- Per-message outcomes of the awaited remote calls: the transcription
gateway, the translation gateway, and the storage promise.  `MemStorage`
itself never rejects, but the handler's catch covers any `IStorage`
implementation, so the awaited persistence outcome is kept abstract. -/
structure WsOracles where
  transcribe : Except String TranscriptionResultData
  translate : Except String TranslationResult
  persist : Except String Unit
  deriving DecidableEq, Repr

/-- Outbound messages the handler can send. -/
inductive WsOutMsg where
  | transcriptionResult (originalText : String) (translatedText : String)
      (timestamp : Int) (speakerLabel : Option String)
  | errorMsg (message : String)
  deriving DecidableEq, Repr

/-- Connection-level effects the handler can perform.  The source's
message handler only ever calls `ws.send`; the `close` constructor
exists so that "the handler does not close the connection" is a
provable statement rather than a modelling assumption. -/
inductive WsEffect where
  | send (m : WsOutMsg)
  | close (code : Nat)
  deriving DecidableEq, Repr

/-- JS `data.language || 'english'` as used in the translation guard. -/
def langOrDefault (l : Option String) : String :=
  match l with
  | some s => if s == "" then "english" else s
  | none => "english"

/-- The translation guard
`data.targetLanguage && data.targetLanguage !== (data.language || 'english')`. -/
def shouldTranslate (msg : WsAudioChunk) : Bool :=
  match msg.targetLanguage with
  | none => false
  | some t => if t == "" then false else !(t == langOrDefault msg.language)

/-- Translation step of the handler: when the guard holds, await the
translation gateway and take `translation.translatedText`, otherwise
`translatedText` stays the empty string. -/
def translationStep (msg : WsAudioChunk) (o : WsOracles) : Except String String :=
  if shouldTranslate msg then
    match o.translate with
    | .error e => .error e
    | .ok translation => .ok translation.translatedText
  else .ok ""

/-- Persistence step of the handler: when `data.sessionId` is present,
await the storage promise and store the new entry built from the chunk
and the pipeline outputs (with the `Math.round((result.duration || 1) * 90)`
mock confidence); otherwise the store is untouched. -/
def persistStep (msg : WsAudioChunk) (o : WsOracles)
    (result : TranscriptionResultData) (translatedText : String) (now : Int)
    (s : MemStorage) : Except String MemStorage :=
  match msg.sessionId with
  | some sid =>
      match o.persist with
      | .error e => .error e
      | .ok _ =>
          .ok (addTranscriptionEntry
            { sessionId := sid
              originalText := result.text
              translatedText := some translatedText
              speakerLabel := msg.speakerLabel
              timestamp := jsOrInt msg.timestamp now
              confidence := some (round (jsOrQ result.duration 1 * 90)) } now s).2
  | none => .ok s

/-- The body of the `audio_chunk` branch up to the successful send:
transcribe, conditionally translate, conditionally persist, and produce
the `transcription_result` message.  Any rejected await escapes as
`Except.error` into the surrounding catch. -/
def processAudioChunk (msg : WsAudioChunk) (o : WsOracles) (now : Int)
    (s : MemStorage) : Except String (WsOutMsg × MemStorage) :=
  match o.transcribe with
  | .error e => .error e
  | .ok result =>
      match translationStep msg o with
      | .error e => .error e
      | .ok translatedText =>
          match persistStep msg o result translatedText now s with
          | .error e => .error e
          | .ok s' =>
              .ok (WsOutMsg.transcriptionResult result.text translatedText
                (jsOrInt msg.timestamp now) msg.speakerLabel, s')

/-- One `message` event on an open connection: run the `audio_chunk`
pipeline inside the try/catch; on success send the result, on any error
send one `error` message with the human-readable reason and leave the
store untouched.  The handler never closes the connection. -/
def handleWsMessage (msg : WsAudioChunk) (o : WsOracles) (now : Int)
    (s : MemStorage) : List WsEffect × MemStorage :=
  match processAudioChunk msg o now s with
  | .ok (out, s') => ([WsEffect.send out], s')
  | .error e => ([WsEffect.send (WsOutMsg.errorMsg e)], s)

/-- A whole connection: the handler applied to each inbound
`audio_chunk` in arrival order, threading the store and concatenating
the emitted effects. -/
def runConnection (items : List (WsAudioChunk × WsOracles)) (now : Int)
    (s : MemStorage) : List WsEffect × MemStorage :=
  match items with
  | [] => ([], s)
  | (msg, o) :: rest =>
      let step := handleWsMessage msg o now s
      let tail := runConnection rest now step.2
      (step.1 ++ tail.1, tail.2)

/-! ## Caption delivery channel reconnect policy
(`client/src/hooks/useWebSocket.ts`) -/

/-- The two options of `useWebSocket` that drive reconnection. -/
structure ChannelConfig where
  autoReconnect : Bool := true
  reconnectDelay : Nat := 3000
  deriving DecidableEq, Repr

/-- Client channel state: the pending reconnect timer (with its delay)
and how many reconnect attempts (`connect()` retries fired by the
timer) have occurred. -/
structure ChannelState where
  pendingReconnect : Option Nat := none
  reconnectAttempts : Nat := 0
  deriving DecidableEq, Repr

/-- Events observable at the channel: the socket's `onclose` with its
close code, an explicit `disconnect()` call, and the firing of the
scheduled reconnect timer. -/
inductive ChannelEvent where
  | closeEvent (code : Nat)
  | disconnectCall
  | timerFire
  deriving DecidableEq, Repr

/-- The `onclose` handler: schedule a reconnect after `reconnectDelay`
only if `autoReconnect && event.code !== 1000`. -/
def handleClose (cfg : ChannelConfig) (code : Nat) (st : ChannelState) : ChannelState :=
  if cfg.autoReconnect && !(code == 1000) then
    { st with pendingReconnect := some cfg.reconnectDelay }
  else st

/-- The `disconnect()` callback: `clearTimeout` on any pending reconnect
timer, then close the socket with the normal-closure code 1000 (which
makes the subsequent `onclose` carry code 1000). -/
def disconnectChannel (st : ChannelState) : ChannelState :=
  { st with pendingReconnect := none }

/-- A scheduled timer firing: it retries `connect()` exactly when a
timer is actually pending, and consumes the schedule. -/
def fireTimer (st : ChannelState) : ChannelState :=
  match st.pendingReconnect with
  | some _ =>
      { pendingReconnect := none, reconnectAttempts := st.reconnectAttempts + 1 }
  | none => st

/-- One channel event step. -/
def stepChannel (cfg : ChannelConfig) (st : ChannelState) (e : ChannelEvent) :
    ChannelState :=
  match e with
  | .closeEvent code => handleClose cfg code st
  | .disconnectCall => disconnectChannel st
  | .timerFire => fireTimer st

/-- A sequence of channel events. -/
def runChannel (cfg : ChannelConfig) (st : ChannelState) (es : List ChannelEvent) :
    ChannelState :=
  es.foldl (stepChannel cfg) st

/-! ## SRT export (`server/routes.ts`, `generateSRT` / `formatSRTTime`) -/

/-- JS `String.prototype.padStart(len, '0')`. -/
def padZero (len : Nat) (s : String) : String :=
  String.mk (List.replicate (len - s.length) '0') ++ s

/-- Source `formatSRTTime`: `new Date(ms)` rendered through
`getUTCHours`/`getUTCMinutes`/`getUTCSeconds`/`getUTCMilliseconds`,
each zero-padded, i.e. the time-of-day decomposition of `ms`
(hours taken modulo 24).  Modelled for nonnegative `ms`. -/
def formatSRTTime (ms : Int) : String :=
  padZero 2 (toString (ms.toNat / 3600000 % 24)) ++ ":" ++
    padZero 2 (toString (ms.toNat / 60000 % 60)) ++ ":" ++
    padZero 2 (toString (ms.toNat / 1000 % 60)) ++ "," ++
    padZero 3 (toString (ms.toNat % 1000))

/-- Source `generateSRT`: one block per entry, numbered from 1 in list
order, start at the entry's timestamp, end at start + 3000 ms, blocks
joined with a newline (each block already ends in one). -/
def generateSRT (entries : List TranscriptionEntry) : String :=
  String.intercalate "\n" (entries.enum.map (fun p =>
    toString (p.1 + 1) ++ "\n" ++ formatSRTTime p.2.timestamp ++ " --> " ++
      formatSRTTime (p.2.timestamp + 3000) ++ "\n" ++ p.2.originalText ++ "\n"))

/-- Claim-side rendering of a timestamp as `HH:MM:SS,mmm`, written from
the spec's words: hours, minutes-of-hour, seconds-of-minute and
milliseconds of the duration `ms`, zero-padded to 2/2/2/3 digits. -/
def specSRTTime (ms : Nat) : String :=
  padZero 2 (toString (ms / 3600000)) ++ ":" ++
    padZero 2 (toString (ms / 60000 % 60)) ++ ":" ++
    padZero 2 (toString (ms / 1000 % 60)) ++ "," ++
    padZero 3 (toString (ms % 1000))

/-- Claim-side SRT block for the entry at (0-based) position `idx`:
numbered `idx + 1`, start time the entry's timestamp, end time the
start plus exactly 3000 ms. -/
def specSRTBlock (idx : Nat) (e : TranscriptionEntry) : String :=
  toString (idx + 1) ++ "\n" ++ specSRTTime e.timestamp.toNat ++ " --> " ++
    specSRTTime (e.timestamp.toNat + 3000) ++ "\n" ++ e.originalText ++ "\n"

/-! ## Theorems -/

/-- C2: for every session id and every store state (hence regardless of
the order in which entries were appended), `getSessionEntries` returns
a list that is sorted ascending by `timestamp` and is a permutation of
exactly the stored entries belonging to that session; appending entries
with timestamps 500, 100, 300 to a fresh store yields read order
100, 300, 500. -/
theorem C2_listEntries_sorted_by_timestamp :
    (∀ (s : MemStorage) (sid : Nat),
      List.Sorted entryLE (getSessionEntries s sid)
      ∧ List.Perm (getSessionEntries s sid)
          (s.entries.filter (fun e => e.sessionId == sid)))
    ∧ ((getSessionEntries
        (addTranscriptionEntry ⟨1, "c", none, none, 300, none⟩ 0
          (addTranscriptionEntry ⟨1, "b", none, none, 100, none⟩ 0
            (addTranscriptionEntry ⟨1, "a", none, none, 500, none⟩ 0
              emptyStorage).2).2).2 1).map (fun e => e.timestamp)
        = [100, 300, 500]) := by
  refine ⟨fun s sid => ⟨?_, ?_⟩, by decide⟩
  · exact List.sorted_insertionSort entryLE _
  · exact List.perm_insertionSort entryLE _

/-- C3: evaluation of the code at the failing input.  The source
`addTranscriptionEntry` performs no session-existence check at all: on
an empty store (no sessions exist) it succeeds for session id 7,
records the entry under that id, and leaves the (empty) session map
unchanged — it never produces an `UnknownSession` failure, contrary to
the claim. -/
theorem C3_append_unknown_session_succeeds :
    ((addTranscriptionEntry ⟨7, "hello", none, none, 0, none⟩ 1000
        emptyStorage).2).sessions = []
    ∧ ((addTranscriptionEntry ⟨7, "hello", none, none, 0, none⟩ 1000
        emptyStorage).2).entries.map (fun e => e.sessionId) = [7]
    ∧ ((addTranscriptionEntry ⟨7, "hello", none, none, 0, none⟩ 1000
        emptyStorage).1).originalText = "hello" := by decide

/-- C8: evaluation of the code at the failing input.  For an insert
that does not supply `status`, the source `createSession` initializes
`status` to `null` (`insertSession.status || null`), not to the
`"active"` default declared on the `transcription_sessions` schema
column — contrary to the claim. -/
theorem C8_createSession_status_not_active :
    ((createSession { sourceLanguage := some "auto", targetLanguage := some "english" }
        0 emptyStorage).1).status = none
    ∧ ((createSession { sourceLanguage := some "auto", targetLanguage := some "english" }
        0 emptyStorage).1).status ≠ some transcriptionSessionsStatusDefault := by decide

/-- C10: `addTranscriptionEntry` is append-only.  Under the fresh-id
counter invariant (every stored entry id is below `nextId`), a call
leaves all previously stored entries and all sessions unchanged, grows
the entry list by exactly the one new entry, assigns it an id distinct
from every existing entry id, and re-establishes the invariant. -/
theorem C10_addTranscriptionEntry_append_only (s : MemStorage)
    (i : InsertTranscriptionEntry) (now : Int)
    (hinv : ∀ e ∈ s.entries, e.id < s.nextId) :
    (addTranscriptionEntry i now s).2.entries
        = s.entries ++ [(addTranscriptionEntry i now s).1]
    ∧ (addTranscriptionEntry i now s).2.sessions = s.sessions
    ∧ (addTranscriptionEntry i now s).2.entries.length = s.entries.length + 1
    ∧ (addTranscriptionEntry i now s).1.id ∉ s.entries.map (fun e => e.id)
    ∧ (∀ e ∈ (addTranscriptionEntry i now s).2.entries,
        e.id < (addTranscriptionEntry i now s).2.nextId) := by
  refine ⟨rfl, rfl, by simp [addTranscriptionEntry], ?_, ?_⟩
  · intro hmem
    rw [List.mem_map] at hmem
    obtain ⟨e, he, hid⟩ := hmem
    have h := hinv e he
    simp only [addTranscriptionEntry] at hid
    omega
  · intro e he
    simp only [addTranscriptionEntry, List.mem_append, List.mem_singleton] at he ⊢
    rcases he with he | he
    · exact Nat.lt_trans (hinv e he) (Nat.lt_succ_self _)
    · rw [he]
      exact Nat.lt_succ_self _

/-- Witness for C10 at a concrete input. -/
theorem C10_witness :
    (addTranscriptionEntry ⟨3, "x", none, none, 5, none⟩ 0 emptyStorage).2.sessions
        = emptyStorage.sessions
    ∧ (addTranscriptionEntry ⟨3, "x", none, none, 5, none⟩ 0 emptyStorage).2.entries.length
        = emptyStorage.entries.length + 1 :=
  ⟨(C10_addTranscriptionEntry_append_only emptyStorage ⟨3, "x", none, none, 5, none⟩ 0
      (by decide)).2.1,
   (C10_addTranscriptionEntry_append_only emptyStorage ⟨3, "x", none, none, 5, none⟩ 0
      (by decide)).2.2.1⟩

/-- Any successful run of the `audio_chunk` pipeline produces a
`transcription_result` message (never an `error` message). -/
lemma processAudioChunk_ok_shape (msg : WsAudioChunk) (o : WsOracles) (now : Int)
    (s : MemStorage) (r : WsOutMsg) (s' : MemStorage)
    (h : processAudioChunk msg o now s = .ok (r, s')) :
    ∃ ot tt ts sl, r = WsOutMsg.transcriptionResult ot tt ts sl := by
  unfold processAudioChunk at h
  split at h
  · exact absurd h (by simp)
  · split at h
    · exact absurd h (by simp)
    · split at h
      · exact absurd h (by simp)
      · rename_i result translated s''
        rw [Except.ok.injEq, Prod.mk.injEq] at h
        exact ⟨_, _, _, _, h.1.symm⟩

/-- C1: when the `audio_chunk` pipeline fails (in the transcription,
translation, or persistence step), the handler performs exactly one
effect — sending one `error` message with the human-readable reason —
never closes the connection, and leaves the store unchanged; a
subsequent chunk on the same connection whose pipeline succeeds still
yields its `transcription_result` message. -/
theorem C1_error_keeps_connection_usable (msg : WsAudioChunk) (o : WsOracles)
    (now : Int) (s : MemStorage) (e : String)
    (hfail : processAudioChunk msg o now s = .error e) :
    handleWsMessage msg o now s = ([WsEffect.send (WsOutMsg.errorMsg e)], s)
    ∧ (∀ msg' o' r s', processAudioChunk msg' o' now s = .ok (r, s') →
        runConnection [(msg, o), (msg', o')] now s
          = ([WsEffect.send (WsOutMsg.errorMsg e), WsEffect.send r], s')
        ∧ ∃ ot tt ts sl, r = WsOutMsg.transcriptionResult ot tt ts sl) := by
  have h1 : handleWsMessage msg o now s = ([WsEffect.send (WsOutMsg.errorMsg e)], s) := by
    unfold handleWsMessage
    rw [hfail]
  refine ⟨h1, fun msg' o' r s' hok => ⟨?_, processAudioChunk_ok_shape msg' o' now s r s' hok⟩⟩
  have h2 : handleWsMessage msg' o' now s = ([WsEffect.send r], s') := by
    unfold handleWsMessage
    rw [hok]
  simp [runConnection, h1, h2]

/-- Witness for C1: a failing chunk followed by a successful one on a
connection without a session id. -/
theorem C1_witness :
    handleWsMessage { audio := "QUJD", timestamp := some 5 }
        { transcribe := .error "boom", translate := .ok ⟨"", none, none⟩, persist := .ok () }
        0 emptyStorage
      = ([WsEffect.send (WsOutMsg.errorMsg "boom")], emptyStorage)
    ∧ runConnection
        [({ audio := "QUJD", timestamp := some 5 },
          { transcribe := .error "boom", translate := .ok ⟨"", none, none⟩, persist := .ok () }),
         ({ audio := "QUJD", timestamp := some 5 },
          { transcribe := .ok ⟨"hello", none⟩, translate := .ok ⟨"", none, none⟩, persist := .ok () })]
        0 emptyStorage
      = ([WsEffect.send (WsOutMsg.errorMsg "boom"),
          WsEffect.send (WsOutMsg.transcriptionResult "hello" "" 5 none)], emptyStorage) :=
  ⟨(C1_error_keeps_connection_usable { audio := "QUJD", timestamp := some 5 }
      { transcribe := .error "boom", translate := .ok ⟨"", none, none⟩, persist := .ok () }
      0 emptyStorage "boom" (by decide)).1,
   ((C1_error_keeps_connection_usable { audio := "QUJD", timestamp := some 5 }
      { transcribe := .error "boom", translate := .ok ⟨"", none, none⟩, persist := .ok () }
      0 emptyStorage "boom" (by decide)).2
     { audio := "QUJD", timestamp := some 5 }
     { transcribe := .ok ⟨"hello", none⟩, translate := .ok ⟨"", none, none⟩, persist := .ok () }
     (WsOutMsg.transcriptionResult "hello" "" 5 none) emptyStorage (by decide)).1⟩

/-- When the configured target language equals the configured source
language, the translation guard is false. -/
lemma shouldTranslate_false_of_same (msg : WsAudioChunk) (l : String)
    (hT : msg.targetLanguage = some l) (hS : msg.language = some l) :
    shouldTranslate msg = false := by
  unfold shouldTranslate langOrDefault
  rw [hT, hS]
  by_cases h : l = "" <;> simp [h]

/-- C4: for an `audio_chunk` whose configured `targetLanguage` string
equals its configured `language` string, the pipeline result is
independent of the translation oracle (the translation gateway is never
invoked), and the emitted `transcription_result` carries an empty
`translatedText`. -/
theorem C4_same_language_skips_translation (msg : WsAudioChunk) (l : String)
    (hT : msg.targetLanguage = some l) (hS : msg.language = some l)
    (o o' : WsOracles) (hTr : o.transcribe = o'.transcribe)
    (hP : o.persist = o'.persist) (now : Int) (s : MemStorage) :
    processAudioChunk msg o now s = processAudioChunk msg o' now s
    ∧ (∀ r s', processAudioChunk msg o now s = .ok (r, s') →
        ∃ ot ts sl, r = WsOutMsg.transcriptionResult ot "" ts sl) := by
  have hst := shouldTranslate_false_of_same msg l hT hS
  have htrans : ∀ oo : WsOracles, translationStep msg oo = .ok "" := by
    intro oo
    unfold translationStep
    rw [hst]
    simp
  constructor
  · unfold processAudioChunk persistStep
    rw [hTr, hP, htrans o, htrans o']
  · intro r s' h
    unfold processAudioChunk at h
    rw [htrans o] at h
    split at h
    · exact absurd h (by simp)
    · split at h
      · exact absurd h (by simp)
      · rename_i heq
        injection heq with heq
        subst heq
        split at h
        · exact absurd h (by simp)
        · rw [Except.ok.injEq, Prod.mk.injEq] at h
          exact ⟨_, _, _, h.1.symm⟩

/-- Witness for C4: same configured source and target language, two
oracles differing only in the translation outcome. -/
theorem C4_witness :
    processAudioChunk
        { audio := "", language := some "english", targetLanguage := some "english",
          timestamp := some 7 }
        { transcribe := .ok ⟨"hi", none⟩, translate := .error "down", persist := .ok () }
        0 emptyStorage
      = processAudioChunk
        { audio := "", language := some "english", targetLanguage := some "english",
          timestamp := some 7 }
        { transcribe := .ok ⟨"hi", none⟩, translate := .ok ⟨"HOLA", none, none⟩,
          persist := .ok () }
        0 emptyStorage :=
  (C4_same_language_skips_translation
    { audio := "", language := some "english", targetLanguage := some "english",
      timestamp := some 7 }
    "english" rfl rfl
    { transcribe := .ok ⟨"hi", none⟩, translate := .error "down", persist := .ok () }
    { transcribe := .ok ⟨"hi", none⟩, translate := .ok ⟨"HOLA", none, none⟩,
      persist := .ok () }
    rfl rfl 0 emptyStorage).1

/-- C5: the transcription gateway's language-option mapping omits the
`language` field for the input `"auto"` (never sends the literal),
replaces every name in the known table by its engine code, and passes
every name outside the table through unchanged. -/
theorem C5_language_mapping :
    requestLanguage (some "auto") = none
    ∧ (∀ p ∈ languageMap, mapLanguageCode p.1 = some p.2)
    ∧ (∀ l : String, l ≠ "auto" → languageMap.lookup l = none →
        mapLanguageCode l = some l) := by
  refine ⟨by decide, by decide, ?_⟩
  intro l hne hlookup
  unfold mapLanguageCode
  rw [if_neg (by simp [hne]), hlookup]
  rfl

/-- Witness for C5: a mapped name, an unmapped name, and `"auto"`. -/
theorem C5_witness :
    mapLanguageCode "klingon" = some "klingon"
    ∧ mapLanguageCode "spanish" = some "es"
    ∧ requestLanguage (some "auto") = none :=
  ⟨C5_language_mapping.2.2 "klingon" (by decide) (by decide),
   C5_language_mapping.2.1 ("spanish", "es") (by decide),
   C5_language_mapping.1⟩

/-- C6 counterexample: a structurally malformed remote response — valid
JSON missing all three expected fields (`{}`) — does NOT make
`translateText` fail; it returns a success result with the input text
echoed back, no detected language, and confidence 0.9.  This refutes
the claim that such responses fail with a `TranslationFailure`. -/
theorem C6_counterexample :
    translateText "hola" { targetLanguage := "english" }
        (ChatOutcome.success (some (ChatContent.object none none none)))
      = .ok { translatedText := "hola", sourceLanguage := none,
              confidence := some defaultTranslationConfidence } := rfl

/-- C6 (amended): `translateText` fails with a `TranslationFailure`
exactly for thrown client errors (network / non-2xx) and for message
content that is not valid JSON; every successfully parsed JSON object —
even one missing `translation`, `detected_language` and `confidence` —
yields a success result, substituting the input text, the configured
source language, and confidence 0.9 for missing fields. -/
theorem C6_parse_failure_handling (text : String) (options : TranslationOptions)
    (raw m : String) :
    (translateText text options (ChatOutcome.success (some (ChatContent.invalidJson raw)))).isOk
        = false
    ∧ (translateText text options (ChatOutcome.failure m)).isOk = false
    ∧ (∀ tr dl cf,
        (translateText text options
          (ChatOutcome.success (some (ChatContent.object tr dl cf)))).isOk = true)
    ∧ translateText text options (ChatOutcome.success (some (ChatContent.object none none none)))
        = .ok { translatedText := text, sourceLanguage := options.sourceLanguage,
                confidence := some defaultTranslationConfidence } :=
  ⟨rfl, rfl, fun _ _ _ => rfl, rfl⟩

/-- Spurious timer fires move nothing once no reconnect is pending. -/
lemma runChannel_no_pending (cfg : ChannelConfig) (st : ChannelState)
    (h : st.pendingReconnect = none) (n : Nat) :
    runChannel cfg st (List.replicate n ChannelEvent.timerFire) = st := by
  induction n with
  | zero => rfl
  | succ k ih =>
      have hstep : stepChannel cfg st ChannelEvent.timerFire = st := by
        unfold stepChannel fireTimer
        rw [h]
      rw [List.replicate_succ]
      show runChannel cfg (stepChannel cfg st ChannelEvent.timerFire)
        (List.replicate k ChannelEvent.timerFire) = st
      rw [hstep]
      exact ih

/-- C7: after an abnormal closure (code other than 1000) with
auto-reconnect enabled, exactly one reconnect is scheduled, with the
configured delay, and however often the timer subsequently fires only
one reconnect attempt occurs; after an explicit `disconnect()` (which
cancels any pending timer and closes with code 1000), no reconnect
attempt ever occurs. -/
theorem C7_reconnect_policy (cfg : ChannelConfig) (st : ChannelState) (c : Nat)
    (hAuto : cfg.autoReconnect = true) (hc : c ≠ 1000) :
    (stepChannel cfg st (ChannelEvent.closeEvent c)).pendingReconnect
        = some cfg.reconnectDelay
    ∧ (∀ n, (runChannel cfg (stepChannel cfg st (ChannelEvent.closeEvent c))
          (List.replicate (n + 1) ChannelEvent.timerFire)).reconnectAttempts
        = st.reconnectAttempts + 1)
    ∧ (∀ n, (runChannel cfg st
          (ChannelEvent.disconnectCall :: ChannelEvent.closeEvent 1000
            :: List.replicate n ChannelEvent.timerFire)).reconnectAttempts
        = st.reconnectAttempts) := by
  have hclose : stepChannel cfg st (ChannelEvent.closeEvent c)
      = { st with pendingReconnect := some cfg.reconnectDelay } := by
    unfold stepChannel handleClose
    simp [hAuto, hc]
  refine ⟨by rw [hclose], ?_, ?_⟩
  · intro n
    rw [hclose, List.replicate_succ]
    show (runChannel cfg
      (stepChannel cfg { st with pendingReconnect := some cfg.reconnectDelay }
        ChannelEvent.timerFire)
      (List.replicate n ChannelEvent.timerFire)).reconnectAttempts
        = st.reconnectAttempts + 1
    have hfire : stepChannel cfg { st with pendingReconnect := some cfg.reconnectDelay }
        ChannelEvent.timerFire
      = { pendingReconnect := none, reconnectAttempts := st.reconnectAttempts + 1 } := rfl
    rw [hfire, runChannel_no_pending cfg _ rfl n]
  · intro n
    show (runChannel cfg (stepChannel cfg (stepChannel cfg st ChannelEvent.disconnectCall)
        (ChannelEvent.closeEvent 1000))
      (List.replicate n ChannelEvent.timerFire)).reconnectAttempts = st.reconnectAttempts
    have hd : stepChannel cfg st ChannelEvent.disconnectCall
        = { st with pendingReconnect := none } := rfl
    have hcl : stepChannel cfg { st with pendingReconnect := none }
        (ChannelEvent.closeEvent 1000) = { st with pendingReconnect := none } := by
      unfold stepChannel handleClose
      simp
    rw [hd, hcl, runChannel_no_pending cfg _ rfl n]

/-- Witness for C7: abnormal close with code 1006 then three timer
fires gives exactly one attempt; disconnect then close 1000 then two
timer fires gives zero attempts. -/
theorem C7_witness :
    (runChannel { autoReconnect := true, reconnectDelay := 3000 }
        (stepChannel { autoReconnect := true, reconnectDelay := 3000 } ⟨none, 0⟩
          (ChannelEvent.closeEvent 1006))
        (List.replicate 3 ChannelEvent.timerFire)).reconnectAttempts = 1
    ∧ (runChannel { autoReconnect := true, reconnectDelay := 3000 } ⟨none, 0⟩
        (ChannelEvent.disconnectCall :: ChannelEvent.closeEvent 1000
          :: List.replicate 2 ChannelEvent.timerFire)).reconnectAttempts = 0 :=
  ⟨(C7_reconnect_policy { autoReconnect := true, reconnectDelay := 3000 } ⟨none, 0⟩
      1006 rfl (by decide)).2.1 2,
   (C7_reconnect_policy { autoReconnect := true, reconnectDelay := 3000 } ⟨none, 0⟩
      1006 rfl (by decide)).2.2 2⟩

/-- Below one day, the Date-based rendering of the source agrees with
the plain duration decomposition of the claim. -/
lemma formatSRTTime_eq_spec (ms : Int) (h0 : 0 ≤ ms) (h : ms < 86400000) :
    formatSRTTime ms = specSRTTime ms.toNat := by
  unfold formatSRTTime specSRTTime
  have hn : ms.toNat / 3600000 % 24 = ms.toNat / 3600000 := by omega
  rw [hn]

/-- Block-by-block agreement of `generateSRT` with the claim-side
blocks, for any starting index. -/
lemma srtBlocks_eq_spec (entries : List TranscriptionEntry) :
    ∀ (k : Nat), (∀ e ∈ entries, 0 ≤ e.timestamp ∧ e.timestamp + 3000 < 86400000) →
      (entries.enumFrom k).map (fun p =>
          toString (p.1 + 1) ++ "\n" ++ formatSRTTime p.2.timestamp ++ " --> " ++
            formatSRTTime (p.2.timestamp + 3000) ++ "\n" ++ p.2.originalText ++ "\n")
        = (entries.enumFrom k).map (fun p => specSRTBlock p.1 p.2) := by
  induction entries with
  | nil => intro k _; rw [List.enumFrom_nil, List.map_nil, List.map_nil]
  | cons e rest ih =>
      intro k h
      have he := h e (List.mem_cons_self e rest)
      have h1 := formatSRTTime_eq_spec e.timestamp he.1 (by omega)
      have h2 := formatSRTTime_eq_spec (e.timestamp + 3000) (by omega) (by omega)
      have h3 : (e.timestamp + 3000).toNat = e.timestamp.toNat + 3000 := by omega
      rw [List.enumFrom_cons, List.map_cons, List.map_cons,
        ih (k + 1) (fun e' he' => h e' (List.mem_cons_of_mem e he'))]
      simp only [specSRTBlock]
      rw [h1, h2, h3]

/-- C9: for every entry list whose timestamps render within one day,
SRT export is exactly one block per entry, numbered consecutively from
1 in list order, with the start time being the timestamp rendered as
`HH:MM:SS,mmm` and the end time the start plus exactly 3000 ms; in
particular 0 ms renders as `00:00:00,000` and 5000 ms as
`00:00:05,000`. -/
theorem C9_srt_export (entries : List TranscriptionEntry)
    (h : ∀ e ∈ entries, 0 ≤ e.timestamp ∧ e.timestamp + 3000 < 86400000) :
    generateSRT entries
      = String.intercalate "\n" (entries.enum.map (fun p => specSRTBlock p.1 p.2))
    ∧ specSRTTime 0 = "00:00:00,000" ∧ specSRTTime 5000 = "00:00:05,000"
    ∧ specSRTTime 3000 = "00:00:03,000" ∧ specSRTTime 8000 = "00:00:08,000" := by
  refine ⟨?_, by decide, by decide, by decide, by decide⟩
  unfold generateSRT List.enum
  exact congrArg (String.intercalate "\n") (srtBlocks_eq_spec entries 0 h)

/-- Witness for C9: the two-entry example of the claim, evaluated to
the literal SRT text. -/
theorem C9_witness :
    generateSRT [⟨0, 0, 1, "hello", none, none, 0, none⟩,
                 ⟨1, 0, 1, "world", none, none, 5000, none⟩]
      = "1\n00:00:00,000 --> 00:00:03,000\nhello\n\n2\n00:00:05,000 --> 00:00:08,000\nworld\n" :=
  ((C9_srt_export [⟨0, 0, 1, "hello", none, none, 0, none⟩,
      ⟨1, 0, 1, "world", none, none, 5000, none⟩] (by decide)).1).trans (by decide)

end ShiftSpeak
